import Mathlib

/-!
Shallow embedding of `app-with-lambda.py`, a single-file Streamlit chat
client. The embedded operations are:

* `call_bedrock_agent` — the Agent Gateway Client (lines 16-44): HTTP outcome
  handling, double-encoded JSON envelope unwrapping, payload extraction with
  defaults;
* `make_friendly_name` (lines 46-49) and the "New Chat" button handler
  (lines 290-298), split into `archive_current_session` and `new_chat`;
* the session-switch lookup (line 321), `switch_session`;
* the chat-submit handler (lines 331-333 and 351-371), `run_submit`,
  operating on the Streamlit session state modelled by `AppState`.

HTTP, `requests` and `json.loads` are external libraries; they are modelled
by an explicit outcome type (`HttpResponse`) and an executable JSON parser
(`parseJson`) covering the JSON subset the program's responses use
(objects, arrays, strings without escape sequences, integers, booleans,
null). Python exceptions that the program does not catch (`TypeError` from
`json.loads` on a non-string, `AttributeError` from `.get` on a non-dict)
are modelled by `Except`.
-/

namespace LegendApp

/-- A JSON value, as produced by Python's `json` module on the subset of
JSON this program exchanges with its gateway. Objects are association
lists of string keys. -/
inductive JValue where
  | jnull : JValue
  | jbool : Bool → JValue
  | jnum : Int → JValue
  | jstr : String → JValue
  | jarr : List JValue → JValue
  | jobj : List (String × JValue) → JValue
deriving Repr

/-- Drop leading JSON whitespace. -/
def skipWs : List Char → List Char
  | [] => []
  | c :: cs => if c = ' ' ∨ c = '\n' ∨ c = '\t' ∨ c = '\r' then skipWs cs else c :: cs

/-- Parse the body of a JSON string after the opening quote, up to the
closing quote. Escape sequences are outside the modelled subset. -/
def parseStrChars : List Char → Option (List Char × List Char)
  | [] => none
  | c :: cs =>
    if c = '"' then some ([], cs)
    else if c = '\\' then none
    else
      match parseStrChars cs with
      | some (s, rest) => some (c :: s, rest)
      | none => none

/-- Split a leading run of decimal digits. -/
def parseDigits : List Char → List Char × List Char
  | [] => ([], [])
  | c :: cs =>
    if c.isDigit then
      let (ds, rest) := parseDigits cs
      (c :: ds, rest)
    else ([], c :: cs)

/-- Numeric value of a digit run. -/
def digitsToNat (ds : List Char) : Nat :=
  ds.foldl (fun n c => n * 10 + (c.toNat - '0'.toNat)) 0

/-- Record a parsed object member. Python's `json.loads` keeps the last
value for a duplicate key, so a key already present in the later members
wins over the current one. -/
def addMember (k : String) (v : JValue) (later : List (String × JValue)) :
    List (String × JValue) :=
  if later.any (fun p => p.1 = k) then later else (k, v) :: later

mutual

/-- Fuel-indexed recursive-descent parser for one JSON value. -/
def parseValue : Nat → List Char → Option (JValue × List Char)
  | 0, _ => none
  | fuel + 1, cs =>
    match skipWs cs with
    | 'n' :: 'u' :: 'l' :: 'l' :: rest => some (.jnull, rest)
    | 't' :: 'r' :: 'u' :: 'e' :: rest => some (.jbool true, rest)
    | 'f' :: 'a' :: 'l' :: 's' :: 'e' :: rest => some (.jbool false, rest)
    | '"' :: rest =>
      (match parseStrChars rest with
       | some (s, rest') => some (.jstr (String.mk s), rest')
       | none => none)
    | '[' :: rest =>
      (match skipWs rest with
       | ']' :: rest' => some (.jarr [], rest')
       | _ =>
         match parseElems fuel rest with
         | some (vs, rest') => some (.jarr vs, rest')
         | none => none)
    | '{' :: rest =>
      (match skipWs rest with
       | '}' :: rest' => some (.jobj [], rest')
       | _ =>
         match parseMembers fuel rest with
         | some (fs, rest') => some (.jobj fs, rest')
         | none => none)
    | '-' :: rest =>
      (match parseDigits rest with
       | ([], _) => none
       | (ds, rest') => some (.jnum (-(digitsToNat ds : Int)), rest'))
    | c :: rest =>
      if c.isDigit then
        match parseDigits (c :: rest) with
        | (ds, rest') => some (.jnum (digitsToNat ds), rest')
      else none
    | [] => none

/-- Elements of a non-empty JSON array, up to and including `]`. -/
def parseElems : Nat → List Char → Option (List JValue × List Char)
  | 0, _ => none
  | fuel + 1, cs =>
    match parseValue fuel cs with
    | none => none
    | some (v, rest) =>
      match skipWs rest with
      | ',' :: rest' =>
        (match parseElems fuel rest' with
         | some (vs, rest'') => some (v :: vs, rest'')
         | none => none)
      | ']' :: rest' => some ([v], rest')
      | _ => none

/-- Members of a non-empty JSON object, up to and including `}`. -/
def parseMembers : Nat → List Char → Option (List (String × JValue) × List Char)
  | 0, _ => none
  | fuel + 1, cs =>
    match skipWs cs with
    | '"' :: rest =>
      (match parseStrChars rest with
       | none => none
       | some (k, rest') =>
         match skipWs rest' with
         | ':' :: rest'' =>
           (match parseValue fuel rest'' with
            | none => none
            | some (v, rest3) =>
              match skipWs rest3 with
              | ',' :: rest4 =>
                (match parseMembers fuel rest4 with
                 | some (fs, rest5) => some (addMember (String.mk k) v fs, rest5)
                 | none => none)
              | '}' :: rest4 => some ([(String.mk k, v)], rest4)
              | _ => none)
         | _ => none)
    | _ => none

end

/-- Model of `json.loads` on the subset described at `JValue`: parse one
JSON value and require that only whitespace remains. `none` is a
`json.JSONDecodeError`. -/
def parseJson (s : String) : Option JValue :=
  match parseValue (2 * s.length + 2) s.data with
  | some (v, rest) => if skipWs rest = [] then some v else none
  | none => none

/-- Key lookup in a JSON object: both `k in data` (when `some`) and
`data[k]` of Python dicts. -/
def jget? (fields : List (String × JValue)) (k : String) : Option JValue :=
  match fields with
  | [] => none
  | (k', v) :: rest => if k' = k then some v else jget? rest k

/-- Python's `dict.get(k, default)`. -/
def jgetD (fields : List (String × JValue)) (k : String) (dflt : JValue) : JValue :=
  (jget? fields k).getD dflt

/-- Python exceptions the program does not catch on the success path. -/
inductive PyError where
  | attributeError : PyError
  | typeError : PyError
deriving Repr, DecidableEq

/-- Outcome of the `requests.post` call as `call_bedrock_agent` observes it:
either a `requests.exceptions.RequestException` (connection error, timeout,
or a non-success status raised by `raise_for_status`), or a success whose
body parsed to a top-level JSON object (the shape the gateway contract
specifies). -/
inductive HttpResponse where
  | exn : HttpResponse
  | ok : List (String × JValue) → HttpResponse

/-- Line 40 of the source: extract `response` and `session_id` from the
effective payload, with the literal no-content sentinel and the
caller-supplied session id as defaults. -/
def extract_payload (inner_data : List (String × JValue)) (session_id : String) :
    JValue × JValue :=
  (jgetD inner_data "response" (.jstr "No response content received."),
   jgetD inner_data "session_id" (.jstr session_id))

/-- Lines 16-44 of the source: `call_bedrock_agent(user_input, session_id)`.
The HTTP outcome is passed in explicitly (`user_input` only flows into the
request body, which the outcome already reflects, so it is not a
parameter). `.error` marks an uncaught Python exception:
`json.loads(data["body"])` with a non-string raises `TypeError`, and
`inner_data.get` on a parsed non-dict raises `AttributeError`; neither is a
`RequestException` or a `JSONDecodeError`, so the source does not catch
them. -/
def call_bedrock_agent (resp : HttpResponse) (session_id : String) :
    Except PyError (JValue × JValue) :=
  match resp with
  | .exn =>
    .ok (.jstr "Sorry, I'm having trouble connecting to the service.", .jstr session_id)
  | .ok data =>
    match jget? data "body" with
    | some bodyVal =>
      (match bodyVal with
       | .jstr s =>
         (match parseJson s with
          | some inner =>
            (match inner with
             | .jobj innerFields => .ok (extract_payload innerFields session_id)
             | _ => .error .attributeError)
          | none => .ok (.jstr "Error: Invalid response format.", .jstr session_id))
       | _ => .error .typeError)
    | none => .ok (extract_payload data session_id)

/-- Line 275 / 296: a session descriptor, the dict
`{"id": str(uuid.uuid4()), "name": ...}`. Python's `in` on a list of such
dicts compares by content, matching structural equality here. -/
structure Session where
  id : String
  name : String
deriving Repr, DecidableEq

/-- A transcript entry, the dict `{"role": ..., "content": ...}`. The
content is a `JValue` because the assistant content is whatever
`inner_data.get("response", ...)` returned, which need not be a string. -/
structure Message where
  role : String
  content : JValue
deriving Repr

/-- The Streamlit session state the handlers touch: the current session
(line 275), the bounded history (line 277), and the per-session transcripts
(line 279). `chat_memory` models a Python dict as an association list in
insertion order with unique keys. -/
structure AppState where
  session : Session
  previous_sessions : List Session
  chat_memory : List (String × List Message)

/-- Python dict lookup `d.get(k)` for the state dicts. -/
def dget? (d : List (String × α)) (k : String) : Option α :=
  match d with
  | [] => none
  | (k', v) :: rest => if k' = k then some v else dget? rest k

/-- Python dict assignment `d[k] = v`: update in place, or append a new
key at the end. -/
def dset (d : List (String × α)) (k : String) (v : α) : List (String × α) :=
  match d with
  | [] => [(k, v)]
  | (k', v') :: rest => if k' = k then (k, v) :: rest else (k', v') :: dset rest k v

/-- The transcript displayed for a session id (empty when the id has no
entry yet). -/
def transcript (st : AppState) (sid : String) : List Message :=
  (dget? st.chat_memory sid).getD []

/-- Lines 46-49: `make_friendly_name()`, reading
`len(st.session_state.get('previous_sessions', [])) + 1` and the formatted
wall-clock time (passed in as a string, as only its text reaches the
state). -/
def make_friendly_name (previous_sessions : List Session) (timestamp : String) : String :=
  "Chat " ++ toString (previous_sessions.length + 1) ++ " – " ++ timestamp

/-- Lines 291-294 of the "New Chat" handler: append the current session to
the history if absent, then evict index 0 (`pop(0)`) when the length
exceeds 10. -/
def archive_current_session (st : AppState) : AppState :=
  if st.session ∈ st.previous_sessions then st
  else
    let ps := st.previous_sessions ++ [st.session]
    { st with previous_sessions := if ps.length > 10 then ps.drop 1 else ps }

/-- The counter component `make_friendly_name` embeds into the name of the
session a "New Chat" click creates: one plus the history length after
archiving (line 296 runs after lines 291-294). -/
def new_chat_counter (st : AppState) : Nat :=
  (archive_current_session st).previous_sessions.length + 1

/-- Lines 290-298: the full "New Chat" handler — archive, then install a
fresh session. The fresh id (`str(uuid.uuid4())`) and the formatted
timestamp are inputs from the environment. -/
def new_chat (st : AppState) (fresh_id : String) (timestamp : String) : AppState :=
  let st' := archive_current_session st
  { st' with
    session := { id := fresh_id, name := make_friendly_name st'.previous_sessions timestamp } }

/-- Line 321: `next((s for s in previous_sessions if s["name"] == chosen_name),
st.session_state.session)` — first history entry with the chosen display
name, defaulting to the current session. -/
def switch_session (st : AppState) (chosen_name : String) : Session :=
  (st.previous_sessions.find? (fun s => s.name == chosen_name)).getD st.session

/-- Lines 331-333: idempotently give the current session an empty
transcript on first sight. -/
def ensure_transcript (st : AppState) (sid : String) : AppState :=
  match dget? st.chat_memory sid with
  | some _ => st
  | none => { st with chat_memory := st.chat_memory ++ [(sid, [])] }

/-- Lines 353 / 368: append one message to a session's transcript. -/
def append_message (st : AppState) (sid : String) (role : String) (content : JValue) :
    AppState :=
  { st with
    chat_memory := dset st.chat_memory sid (transcript st sid ++ [⟨role, content⟩]) }

/-- Lines 331-333 and 351-371: one submitted prompt. The user message is
appended first; then `call_bedrock_agent` runs, its resolved session id is
discarded (`response_text, _ = ...`), and its reply is appended as the
assistant message. If the call raises an uncaught exception the script run
aborts there, and the in-place mutations made so far (the user message)
persist in the session state. -/
def run_submit (st : AppState) (prompt : String) (resp : HttpResponse) : AppState :=
  let sid := st.session.id
  let st1 := ensure_transcript st sid
  let st2 := append_message st1 sid "user" (.jstr prompt)
  match call_bedrock_agent resp sid with
  | .ok (response_text, _) => append_message st2 sid "assistant" response_text
  | .error _ => st2

/-- Modelled from the spec: `str(uuid.uuid4())` (Python's stdlib, not part
of the repository) — "generates a fresh unique id". The spec's uniqueness
contract is modelled by a generator indexed by the draw number within the
process lifetime, injective by construction. -/
def uuid4 (draw : Nat) : String :=
  String.mk ('u' :: List.replicate draw 'x')

/-- Lines 274-279: the state of a fresh process, with the initial session
id drawn from the uuid source. -/
def init_state (fresh_id : String) : AppState :=
  { session := { id := fresh_id, name := "Current Chat" },
    previous_sessions := [],
    chat_memory := [] }

/-- A concrete history entry, for counterexample states. -/
def cexSession (i : Nat) : Session :=
  { id := "id-" ++ toString i, name := "Chat " ++ toString i }

/-- A concrete state whose history is already at the 10-entry cap and whose
current session is not yet archived. -/
def cexState : AppState :=
  { session := { id := "current-id", name := "Current Chat" },
    previous_sessions := (List.range 10).map cexSession,
    chat_memory := [] }

/-! ### Dictionary lemmas -/

theorem dget?_append_of_none {α : Type _} {d e : List (String × α)} {k : String}
    (h : dget? d k = none) : dget? (d ++ e) k = dget? e k := by
  induction d with
  | nil => simp
  | cons p rest ih =>
    obtain ⟨k', v'⟩ := p
    by_cases hk : k' = k
    · simp [dget?, hk] at h
    · simp only [List.cons_append, dget?, if_neg hk] at h ⊢
      exact ih h

theorem dget?_append_of_some {α : Type _} {d e : List (String × α)} {k : String} {v : α}
    (h : dget? d k = some v) : dget? (d ++ e) k = some v := by
  induction d with
  | nil => simp [dget?] at h
  | cons p rest ih =>
    obtain ⟨k', v'⟩ := p
    by_cases hk : k' = k
    · simp only [dget?, if_pos hk] at h
      simp only [List.cons_append, dget?, if_pos hk, h]
    · simp only [dget?, if_neg hk] at h
      simp only [List.cons_append, dget?, if_neg hk]
      exact ih h

theorem dget?_dset_self {α : Type _} (d : List (String × α)) (k : String) (v : α) :
    dget? (dset d k v) k = some v := by
  induction d with
  | nil => simp [dset, dget?]
  | cons p rest ih =>
    obtain ⟨k', v'⟩ := p
    by_cases hk : k' = k
    · simp [dset, hk, dget?]
    · simp [dset, hk, dget?, ih]

theorem dget?_dset_ne {α : Type _} (d : List (String × α)) {k k' : String} (v : α)
    (h : k' ≠ k) : dget? (dset d k v) k' = dget? d k' := by
  induction d with
  | nil => simp [dset, dget?, Ne.symm h]
  | cons p rest ih =>
    obtain ⟨k'', v''⟩ := p
    by_cases hk : k'' = k
    · subst hk
      simp [dset, dget?, Ne.symm h]
    · simp [dset, hk, dget?, ih]

/-! ### Transcript and state-preservation lemmas -/

theorem transcript_ensure_self (st : AppState) (sid : String) :
    transcript (ensure_transcript st sid) sid = transcript st sid := by
  unfold transcript ensure_transcript
  cases h : dget? st.chat_memory sid with
  | some t => simp [h]
  | none => simp [h, dget?_append_of_none h, dget?]

theorem transcript_ensure_ne (st : AppState) {sid k : String} (h : k ≠ sid) :
    transcript (ensure_transcript st sid) k = transcript st k := by
  unfold transcript ensure_transcript
  cases hm : dget? st.chat_memory sid with
  | some t => simp [hm]
  | none =>
    cases hk : dget? st.chat_memory k with
    | some t => simp [hk, dget?_append_of_some hk]
    | none => simp [hk, dget?_append_of_none hk, dget?, Ne.symm h]

theorem transcript_append_message_self (st : AppState) (sid role : String) (c : JValue) :
    transcript (append_message st sid role c) sid = transcript st sid ++ [⟨role, c⟩] := by
  simp only [transcript, append_message]
  rw [dget?_dset_self]
  rfl

theorem transcript_append_message_ne (st : AppState) {sid k : String} (role : String)
    (c : JValue) (h : k ≠ sid) :
    transcript (append_message st sid role c) k = transcript st k := by
  simp only [transcript, append_message]
  rw [dget?_dset_ne _ _ h]

theorem session_ensure_transcript (st : AppState) (sid : String) :
    (ensure_transcript st sid).session = st.session := by
  unfold ensure_transcript
  cases dget? st.chat_memory sid <;> rfl

theorem previous_ensure_transcript (st : AppState) (sid : String) :
    (ensure_transcript st sid).previous_sessions = st.previous_sessions := by
  unfold ensure_transcript
  cases dget? st.chat_memory sid <;> rfl

theorem session_append_message (st : AppState) (sid role : String) (c : JValue) :
    (append_message st sid role c).session = st.session := rfl

theorem previous_append_message (st : AppState) (sid role : String) (c : JValue) :
    (append_message st sid role c).previous_sessions = st.previous_sessions := rfl

theorem run_submit_session (st : AppState) (prompt : String) (resp : HttpResponse) :
    (run_submit st prompt resp).session = st.session := by
  simp only [run_submit]
  cases h : call_bedrock_agent resp st.session.id with
  | ok p =>
    obtain ⟨r, s⟩ := p
    simp [h, session_append_message, session_ensure_transcript]
  | error e => simp [h, session_append_message, session_ensure_transcript]

theorem run_submit_previous (st : AppState) (prompt : String) (resp : HttpResponse) :
    (run_submit st prompt resp).previous_sessions = st.previous_sessions := by
  simp only [run_submit]
  cases h : call_bedrock_agent resp st.session.id with
  | ok p =>
    obtain ⟨r, s⟩ := p
    simp [h, previous_append_message, previous_ensure_transcript]
  | error e => simp [h, previous_append_message, previous_ensure_transcript]

theorem transcript_run_submit_of_ok (st : AppState) (prompt : String) (resp : HttpResponse)
    (r s : JValue) (h : call_bedrock_agent resp st.session.id = .ok (r, s)) :
    transcript (run_submit st prompt resp) st.session.id
      = transcript st st.session.id ++ [⟨"user", .jstr prompt⟩, ⟨"assistant", r⟩] := by
  simp only [run_submit, h]
  rw [transcript_append_message_self, transcript_append_message_self,
    transcript_ensure_self]
  simp

theorem transcript_run_submit_of_error (st : AppState) (prompt : String)
    (resp : HttpResponse) (e : PyError) (h : call_bedrock_agent resp st.session.id = .error e) :
    transcript (run_submit st prompt resp) st.session.id
      = transcript st st.session.id ++ [⟨"user", .jstr prompt⟩] := by
  simp only [run_submit, h]
  rw [transcript_append_message_self, transcript_ensure_self]

theorem transcript_run_submit_ne (st : AppState) (prompt : String) (resp : HttpResponse)
    {k : String} (h : k ≠ st.session.id) :
    transcript (run_submit st prompt resp) k = transcript st k := by
  simp only [run_submit]
  cases hc : call_bedrock_agent resp st.session.id with
  | ok p =>
    obtain ⟨r, s⟩ := p
    simp only [hc]
    rw [transcript_append_message_ne _ _ _ h, transcript_append_message_ne _ _ _ h,
      transcript_ensure_ne _ h]
  | error e =>
    simp only [hc]
    rw [transcript_append_message_ne _ _ _ h, transcript_ensure_ne _ h]

/-! ### Archive lemmas -/

theorem archive_previous_of_not_mem (st : AppState)
    (h : st.session ∉ st.previous_sessions)
    (hlen : st.previous_sessions.length + 1 ≤ 10) :
    (archive_current_session st).previous_sessions
      = st.previous_sessions ++ [st.session] := by
  unfold archive_current_session
  rw [if_neg h]
  simp only
  rw [if_neg]
  simp only [List.length_append, List.length_singleton]
  omega

theorem archive_length_le (st : AppState) :
    st.previous_sessions.length ≤ (archive_current_session st).previous_sessions.length := by
  unfold archive_current_session
  by_cases hm : st.session ∈ st.previous_sessions
  · simp [hm]
  · rw [if_neg hm]
    simp only
    by_cases hl : (st.previous_sessions ++ [st.session]).length > 10
    · rw [if_pos hl]
      simp only [List.length_drop, List.length_append, List.length_singleton]
      omega
    · rw [if_neg hl]
      simp only [List.length_append, List.length_singleton]
      omega

/-! ### Claim theorems -/

/-- C1: for every successful HTTP response whose top-level JSON object
contains a `body` field holding a JSON-encoded string, `call_bedrock_agent`
parses that inner string as JSON and uses it as the effective payload; in
particular, the gateway response whose `body` string encodes
`\x7b"response":"X","session_id":"S2"\x7d` yields the pair `("X", "S2")`. -/
theorem claim_C1_envelope_unwrapped :
    (∀ (data : List (String × JValue)) (session_id s : String)
       (inner : List (String × JValue)),
       jget? data "body" = some (.jstr s) →
       parseJson s = some (.jobj inner) →
       call_bedrock_agent (.ok data) session_id = .ok (extract_payload inner session_id)) ∧
    (∀ session_id : String,
       call_bedrock_agent
           (.ok [("body", .jstr "\x7b\"response\":\"X\",\"session_id\":\"S2\"\x7d")])
           session_id
         = .ok (.jstr "X", .jstr "S2")) := by
  constructor
  · intro data session_id s inner hbody hparse
    simp only [call_bedrock_agent, hbody, hparse]
  · intro session_id
    rfl

/-- Witness for C1 at the gateway response of the claim. -/
theorem claim_C1_envelope_unwrapped_witness :
    call_bedrock_agent
        (.ok [("body", .jstr "\x7b\"response\":\"X\",\"session_id\":\"S2\"\x7d")]) "S1"
      = .ok (extract_payload [("response", .jstr "X"), ("session_id", .jstr "S2")] "S1") :=
  claim_C1_envelope_unwrapped.1 _ "S1" _ _ rfl rfl

/-- C2: for every successful HTTP response whose top-level JSON object has
no `body` field, `call_bedrock_agent` extracts `response` and `session_id`
directly from that object; in particular, the gateway response
`\x7b"response":"X","session_id":"S2"\x7d` yields the pair `("X", "S2")`. -/
theorem claim_C2_direct_payload :
    (∀ (data : List (String × JValue)) (session_id : String),
       jget? data "body" = none →
       call_bedrock_agent (.ok data) session_id = .ok (extract_payload data session_id)) ∧
    (∀ session_id : String,
       call_bedrock_agent (.ok [("response", .jstr "X"), ("session_id", .jstr "S2")])
           session_id
         = .ok (.jstr "X", .jstr "S2")) := by
  constructor
  · intro data session_id hbody
    simp only [call_bedrock_agent, hbody]
  · intro session_id
    rfl

/-- Witness for C2 at the gateway response of the claim. -/
theorem claim_C2_direct_payload_witness :
    call_bedrock_agent (.ok [("response", .jstr "X"), ("session_id", .jstr "S2")]) "S1"
      = .ok (extract_payload [("response", .jstr "X"), ("session_id", .jstr "S2")] "S1") :=
  claim_C2_direct_payload.1 _ "S1" rfl

/-- C3: for every successful HTTP response carrying a `body` field whose
string value is not valid JSON, `call_bedrock_agent` returns normally (no
exception propagates) with the fixed message
`"Error: Invalid response format."` paired with the caller-supplied
session id unchanged. -/
theorem claim_C3_malformed_envelope :
    ∀ (data : List (String × JValue)) (session_id s : String),
      jget? data "body" = some (.jstr s) →
      parseJson s = none →
      call_bedrock_agent (.ok data) session_id
        = .ok (.jstr "Error: Invalid response format.", .jstr session_id) := by
  intro data session_id s hbody hparse
  simp only [call_bedrock_agent, hbody, hparse]

/-- Witness for C3 at the body string `"not json"`. -/
theorem claim_C3_malformed_envelope_witness :
    call_bedrock_agent (.ok [("body", .jstr "not json")]) "S1"
      = .ok (.jstr "Error: Invalid response format.", .jstr "S1") :=
  claim_C3_malformed_envelope _ "S1" "not json" rfl rfl

/-- C4: on a transport failure (network error, timeout, or non-success
status — all of which reach the handler as a `RequestException`, `.exn`),
`call_bedrock_agent` returns the fixed fallback message paired with the
original caller-supplied session id, and the submit handler leaves the
session and history unchanged while appending the user message and exactly
one fallback assistant message to the current transcript. -/
theorem claim_C4_transport_failure (st : AppState) (prompt session_id : String) :
    call_bedrock_agent .exn session_id
        = .ok (.jstr "Sorry, I'm having trouble connecting to the service.",
               .jstr session_id) ∧
    (run_submit st prompt .exn).session = st.session ∧
    (run_submit st prompt .exn).previous_sessions = st.previous_sessions ∧
    transcript (run_submit st prompt .exn) st.session.id
      = transcript st st.session.id
        ++ [⟨"user", .jstr prompt⟩,
            ⟨"assistant", .jstr "Sorry, I'm having trouble connecting to the service."⟩] := by
  refine ⟨rfl, run_submit_session st prompt .exn, run_submit_previous st prompt .exn, ?_⟩
  exact transcript_run_submit_of_ok st prompt .exn _ _ rfl

/-- C5: payload extraction (line 40, applied to every effective payload)
defaults the reply to the literal no-content sentinel when `response` is
absent, and the resolved session id to the caller-supplied one when
`session_id` is absent. -/
theorem claim_C5_defaults :
    ∀ (inner_data : List (String × JValue)) (session_id : String),
      (jget? inner_data "response" = none →
        (extract_payload inner_data session_id).1
          = .jstr "No response content received.") ∧
      (jget? inner_data "session_id" = none →
        (extract_payload inner_data session_id).2 = .jstr session_id) := by
  intro inner_data session_id
  constructor
  · intro h
    simp [extract_payload, jgetD, h]
  · intro h
    simp [extract_payload, jgetD, h]

/-- Witness for C5 at the empty payload. -/
theorem claim_C5_defaults_witness :
    (extract_payload [] "S1").1 = .jstr "No response content received." ∧
    (extract_payload [] "S1").2 = .jstr "S1" :=
  ⟨(claim_C5_defaults [] "S1").1 rfl, (claim_C5_defaults [] "S1").2 rfl⟩

/-- C6: archiving preserves the 10-entry bound on the history, and when the
bound is hit with a not-yet-archived current session, the oldest entry
(index 0) is evicted and the current session is appended at the back —
oldest-first FIFO eviction. -/
theorem claim_C6_history_bounded (st : AppState)
    (hinv : st.previous_sessions.length ≤ 10) :
    (archive_current_session st).previous_sessions.length ≤ 10 ∧
    (st.session ∉ st.previous_sessions → st.previous_sessions.length = 10 →
      (archive_current_session st).previous_sessions
        = st.previous_sessions.drop 1 ++ [st.session]) := by
  constructor
  · unfold archive_current_session
    by_cases hm : st.session ∈ st.previous_sessions
    · simpa [hm] using hinv
    · rw [if_neg hm]
      dsimp only
      split
      · next h =>
          simp only [List.length_drop, List.length_append, List.length_singleton]
          omega
      · next h =>
          simp only [List.length_append, List.length_singleton] at h ⊢
          omega
  · intro hm hlen
    unfold archive_current_session
    rw [if_neg hm]
    have hl : (st.previous_sessions ++ [st.session]).length > 10 := by
      simp [List.length_append, hlen]
    simp only [if_pos hl]
    exact List.drop_append_of_le_length (by omega)

/-- Witness for C6 at a state whose history holds ten sessions and whose
current session is not yet archived. -/
theorem claim_C6_history_bounded_witness :
    (archive_current_session cexState).previous_sessions.length ≤ 10 ∧
    (archive_current_session cexState).previous_sessions
      = cexState.previous_sessions.drop 1 ++ [cexState.session] :=
  ⟨(claim_C6_history_bounded cexState (by decide)).1,
   (claim_C6_history_bounded cexState (by decide)).2 (by decide) (by decide)⟩

/-- C7: looking up a session by display name returns the current session
unchanged when no history entry carries that name (and raises nothing —
the operation is total), and returns the first history entry carrying the
name otherwise. -/
theorem claim_C7_switch_lookup (st : AppState) (chosen_name : String) :
    ((∀ s ∈ st.previous_sessions, s.name ≠ chosen_name) →
      switch_session st chosen_name = st.session) ∧
    (∀ (l1 l2 : List Session) (s : Session),
      st.previous_sessions = l1 ++ s :: l2 → s.name = chosen_name →
      (∀ t ∈ l1, t.name ≠ chosen_name) →
      switch_session st chosen_name = s) := by
  constructor
  · intro hmiss
    unfold switch_session
    rw [List.find?_eq_none.mpr]
    · rfl
    · intro s hs
      simpa using hmiss s hs
  · intro l1 l2 s hdecomp hname hbefore
    unfold switch_session
    rw [hdecomp, List.find?_append]
    rw [List.find?_eq_none.mpr (by intro t ht; simpa using hbefore t ht)]
    simp [List.find?_cons, hname]

/-- Witness for C7: a name absent from the ten-session history falls back
to the current session, and a present name returns its (first) entry. -/
theorem claim_C7_switch_lookup_witness :
    switch_session cexState "No Such Chat" = cexState.session ∧
    switch_session cexState "Chat 3" = cexSession 3 :=
  ⟨(claim_C7_switch_lookup cexState "No Such Chat").1 (by decide),
   (claim_C7_switch_lookup cexState "Chat 3").2
     ((List.range 3).map cexSession)
     ((List.range' 4 6).map cexSession)
     (cexSession 3) (by decide) (by decide) (by decide)⟩

/-- C8 counterexample: once the history is at the 10-entry cap, eviction
keeps its length at 10, so `len(previous_sessions) + 1` — the counter
`make_friendly_name` embeds in the name — is 11 for two successive "New
Chat" creations: it is not strictly larger for each successive creation. -/
theorem claim_C8_counterexample :
    new_chat_counter cexState = 11 ∧
    new_chat_counter (new_chat cexState "fresh-1" "t1") = 11 ∧
    (new_chat cexState "fresh-1" "t1").session.name = "Chat 11 – t1" ∧
    (new_chat (new_chat cexState "fresh-1" "t1") "fresh-2" "t2").session.name
      = "Chat 11 – t2" ∧
    ¬ new_chat_counter cexState < new_chat_counter (new_chat cexState "fresh-1" "t1") :=
  ⟨rfl, rfl, rfl, rfl, by decide⟩

/-- C8 amended: every session created by "New Chat" is named from the
counter `new_chat_counter` (one plus the post-archive history length)
together with the wall-clock timestamp; the counter never decreases across
successive creations, and it is strictly larger for the next creation
whenever the outgoing session is not already archived and the history
stays below the 10-entry cap. -/
theorem claim_C8_amended :
    (∀ (st : AppState) (fresh_id ts : String),
       (new_chat st fresh_id ts).session.name
         = "Chat " ++ toString (new_chat_counter st) ++ " – " ++ ts) ∧
    (∀ (st : AppState) (fresh_id ts : String),
       new_chat_counter st ≤ new_chat_counter (new_chat st fresh_id ts)) ∧
    (∀ (st : AppState) (fresh_id ts : String),
       st.session ∉ st.previous_sessions →
       (new_chat st fresh_id ts).session ∉ (new_chat st fresh_id ts).previous_sessions →
       st.previous_sessions.length + 2 ≤ 10 →
       new_chat_counter (new_chat st fresh_id ts) = new_chat_counter st + 1) := by
  refine ⟨fun st fresh_id ts => rfl, fun st fresh_id ts => ?_, ?_⟩
  · have hprev : (new_chat st fresh_id ts).previous_sessions
        = (archive_current_session st).previous_sessions := rfl
    have h := archive_length_le (new_chat st fresh_id ts)
    unfold new_chat_counter
    rw [hprev] at h
    omega
  · intro st fresh_id ts h1 h2 hlen
    have e1 : (archive_current_session st).previous_sessions
        = st.previous_sessions ++ [st.session] :=
      archive_previous_of_not_mem st h1 (by omega)
    have e2 : (new_chat st fresh_id ts).previous_sessions
        = st.previous_sessions ++ [st.session] := e1
    have hlen2 : (new_chat st fresh_id ts).previous_sessions.length + 1 ≤ 10 := by
      rw [e2]
      simp only [List.length_append, List.length_singleton]
      omega
    have e3 : (archive_current_session (new_chat st fresh_id ts)).previous_sessions
        = (new_chat st fresh_id ts).previous_sessions
          ++ [(new_chat st fresh_id ts).session] :=
      archive_previous_of_not_mem _ h2 hlen2
    unfold new_chat_counter
    rw [e3, e2, e1]
    simp [List.length_append]

/-- Witness for C8 amended: from a fresh process state, the first "New
Chat" is named from the counter, and a second creation strictly increases
the counter. -/
theorem claim_C8_amended_witness :
    (new_chat (init_state "u0") "f1" "t1").session.name
      = "Chat " ++ toString (new_chat_counter (init_state "u0")) ++ " – " ++ "t1" ∧
    new_chat_counter (new_chat (init_state "u0") "f1" "t1")
      = new_chat_counter (init_state "u0") + 1 :=
  ⟨claim_C8_amended.1 (init_state "u0") "f1" "t1",
   claim_C8_amended.2.2 (init_state "u0") "f1" "t1" (by decide) (by decide) (by decide)⟩

/-- C9: with the uuid source modelled as a draw-indexed injective generator
(`uuid4`, modelled from the spec's "fresh unique id" contract for Python's
`uuid.uuid4`), any two session creations at distinct draws — whether "New
Chat" creations or the initial session — receive distinct session ids. -/
theorem claim_C9_unique_ids (i j : Nat) (st st' : AppState) (t t' : String)
    (h : i ≠ j) :
    (new_chat st (uuid4 i) t).session.id ≠ (new_chat st' (uuid4 j) t').session.id ∧
    (init_state (uuid4 i)).session.id ≠ (new_chat st' (uuid4 j) t').session.id := by
  have hinj : uuid4 i ≠ uuid4 j := by
    intro he
    apply h
    have hd : ('u' :: List.replicate i 'x') = ('u' :: List.replicate j 'x') :=
      congrArg String.data he
    have hr : List.replicate i 'x' = List.replicate j 'x' := by
      injection hd
    have := congrArg List.length hr
    simpa using this
  exact ⟨hinj, hinj⟩

/-- Witness for C9 at draws 1 and 2. -/
theorem claim_C9_unique_ids_witness :
    (new_chat (init_state (uuid4 0)) (uuid4 1) "t1").session.id
      ≠ (new_chat (init_state (uuid4 0)) (uuid4 2) "t2").session.id :=
  (claim_C9_unique_ids 1 2 (init_state (uuid4 0)) (init_state (uuid4 0)) "t1" "t2"
    (by decide)).1

/-- C10: for every submitted query, whatever the gateway outcome, the
current session descriptor and the history are unchanged, every other
session's transcript is unchanged, and the current session's transcript is
only appended to — the resolved session id from the gateway is discarded
and the active session never switches. -/
theorem claim_C10_frame (st : AppState) (prompt : String) (resp : HttpResponse) :
    (run_submit st prompt resp).session = st.session ∧
    (run_submit st prompt resp).previous_sessions = st.previous_sessions ∧
    (∀ k : String, k ≠ st.session.id →
      transcript (run_submit st prompt resp) k = transcript st k) ∧
    (∃ tail : List Message,
      transcript (run_submit st prompt resp) st.session.id
        = transcript st st.session.id ++ tail) := by
  refine ⟨run_submit_session st prompt resp, run_submit_previous st prompt resp,
    fun k hk => transcript_run_submit_ne st prompt resp hk, ?_⟩
  cases hc : call_bedrock_agent resp st.session.id with
  | ok p =>
    obtain ⟨r, s⟩ := p
    exact ⟨_, transcript_run_submit_of_ok st prompt resp r s hc⟩
  | error e =>
    exact ⟨_, transcript_run_submit_of_error st prompt resp e hc⟩

/-- Witness for C10 at a concrete state, prompt and gateway response whose
payload resolves a different session id. -/
theorem claim_C10_frame_witness :
    (run_submit (init_state "u0") "hi"
        (.ok [("response", .jstr "X"), ("session_id", .jstr "S2")])).session
      = (init_state "u0").session ∧
    transcript
        (run_submit (init_state "u0") "hi"
          (.ok [("response", .jstr "X"), ("session_id", .jstr "S2")]))
        "other"
      = transcript (init_state "u0") "other" :=
  ⟨(claim_C10_frame (init_state "u0") "hi"
      (.ok [("response", .jstr "X"), ("session_id", .jstr "S2")])).1,
   (claim_C10_frame (init_state "u0") "hi"
      (.ok [("response", .jstr "X"), ("session_id", .jstr "S2")])).2.2.1 "other"
     (by decide)⟩

end LegendApp
